import Mathlib

/-!
Shallow embedding of `src/inject/websocketService.ts` (class
`InjectWebSocketService`) from the bilibili-subtitle repository.

The file has two parts:
* the request pipeline (`handleMessage` / `handleSubtitleRequest` and its
  helpers `extractBVID`, `getVideoInfo`, `getSubtitleList`,
  `downloadSubtitle`, `sendResponse`), embedded as pure functions over an
  environment that supplies the results of the three external fetches, and
* the connection manager (`connect` / `scheduleReconnect` and the
  open/close/error/timer callbacks), embedded as a state machine over
  event traces.

JavaScript-specific behaviour is embedded explicitly: `String(error)` on an
`Error` object renders as `"Error: " ++ message`, `x || y` falls through on
the empty string, `String.prototype.replace` with a string pattern replaces
only the first occurrence, and the regex `/\/video\/(BV\w+)/` is modelled
as a character-level scan.
-/

namespace BiliSub

/-- `interface TranscriptItem` from the source: one caption line. -/
structure TranscriptItem where
  from_ : Int
  to_ : Int
  content : String
deriving DecidableEq, Repr

/-- The `data` payload of `interface SubtitleResponse`. -/
structure SuccessData where
  title : String
  author : String
  url : String
  ctime : Int
  subtitles : List TranscriptItem
deriving DecidableEq, Repr

/-- `interface SubtitleResponse`: outbound message.  The optional TS fields
`data?` and `error?` become `Option`s. -/
structure SubtitleResponse where
  type : String
  requestId : String
  data : Option SuccessData
  error : Option String
deriving DecidableEq, Repr

/-- `interface SubtitleRequest`: inbound message after JSON decoding.  The
`type` tag is an arbitrary string at runtime (the TS literal type is not
enforced by `JSON.parse`). -/
structure SubtitleRequest where
  type : String
  videoUrl : String
  requestId : String
deriving DecidableEq, Repr

/-- A JavaScript thrown value, identified by how `String(·)` renders it:
either an `Error` object carrying a message, or any other value carrying
its string rendering directly. -/
inductive Thrown where
  | jsError (msg : String)
  | value (rendering : String)
deriving DecidableEq, Repr

/-- `String(v)` on a thrown value: an `Error` object renders as
`"Error: " ++ message` (just `"Error"` when the message is empty); any
other value renders as itself. -/
def Thrown.jsString : Thrown → String
  | .jsError msg => if msg = "" then "Error" else "Error: " ++ msg
  | .value r => r

/-- The owner object inside the video-info payload (`videoInfo.owner`). -/
structure Owner where
  name : String
deriving DecidableEq, Repr

/-- One entry of `videoInfo.pages`. -/
structure PageInfo where
  cid : Int
deriving DecidableEq, Repr

/-- The `data` member of the metadata API envelope (`videoInfo` in the
source): the fields the pipeline reads. -/
structure VideoInfo where
  title : String
  aid : Int
  ctime : Int
  owner : Option Owner
  pages : List PageInfo
deriving DecidableEq, Repr

/-- The metadata API envelope `{code, message, data}`. -/
structure VideoInfoEnvelope where
  code : Int
  message : String
  data : VideoInfo
deriving DecidableEq, Repr

/-- One caption-track descriptor from the caption-list API
(`result.data.subtitle.subtitles[i]`); the pipeline only reads its
download URL.  A missing/empty URL is the empty string (both are falsy
under the source's `item.subtitle_url` filter). -/
structure SubtitleTrack where
  subtitle_url : String
deriving DecidableEq, Repr

/-- The caption-list API envelope: `{code, message}` plus the track list
found at `data.subtitle.subtitles`. -/
structure SubtitleListEnvelope where
  code : Int
  message : String
  subtitles : List SubtitleTrack
deriving DecidableEq, Repr

/-- The caption document fetched by `downloadSubtitle`: its `body` list may
be absent. -/
structure SubtitleDoc where
  body : Option (List TranscriptItem)
deriving DecidableEq, Repr

/-- Outcome of one awaited `fetch(...).json()` pair: either the promise
chain rejects with a thrown value, or it resolves to a decoded document. -/
inductive FetchResult (α : Type) where
  | reject (v : Thrown)
  | ok (a : α)
deriving DecidableEq, Repr

/-- The environment of one request: the results the three external
endpoints would return for this request's fetches. -/
structure Env where
  videoInfoResult : FetchResult VideoInfoEnvelope
  subtitleListResult : FetchResult SubtitleListEnvelope
  downloadResult : FetchResult SubtitleDoc
deriving DecidableEq, Repr

/-- A record of one `fetch` the pipeline issued: the URL and whether the
call used `credentials: 'include'`. -/
structure FetchCall where
  url : String
  withCredentials : Bool
deriving DecidableEq, Repr

/-- What one run of the handler produced: the responses it handed to
`sendResponse`, and the network fetches it issued, in order. -/
structure PipelineResult where
  responses : List SubtitleResponse
  calls : List FetchCall
deriving DecidableEq, Repr

/-! ### String helpers: the regex and the URL rewrite -/

/-- JS `\w`: `[A-Za-z0-9_]`. -/
def isWordChar (c : Char) : Bool :=
  ('a' ≤ c && c ≤ 'z') || ('A' ≤ c && c ≤ 'Z') || ('0' ≤ c && c ≤ '9') || c = '_'

/-- The literal part `/video/BV` of the regex `/\/video\/(BV\w+)/`. -/
def bvLiteral : List Char := ['/', 'v', 'i', 'd', 'e', 'o', '/', 'B', 'V']

/-- Try to match `\/video\/(BV\w+)` anchored at the head of `l`; on success
return the capture group (`BV` plus the maximal following run of word
characters, which must be non-empty). -/
def bvMatchAt (l : List Char) : Option (List Char) :=
  if bvLiteral.isPrefixOf l then
    let run := (l.drop bvLiteral.length).takeWhile isWordChar
    if run.isEmpty then none else some ('B' :: 'V' :: run)
  else none

/-- `url.match(/\/video\/(BV\w+)/)`: scan left to right for the first
position where the pattern matches, as a regex engine does. -/
def bvScan : List Char → Option (List Char)
  | [] => none
  | c :: rest =>
    match bvMatchAt (c :: rest) with
    | some bv => some bv
    | none => bvScan rest

/-- `extractBVID` (source lines 173–179), with the `throw` made explicit:
`none` embeds the branch that throws
`new Error('无法从URL中提取BV号，请确保URL格式正确')`. -/
def extractBVID (url : String) : Option String :=
  (bvScan url.toList).map fun l => ⟨l⟩

/-- The message of the error `extractBVID` throws when the pattern does not
match. -/
def extractBVIDErrMsg : String := "无法从URL中提取BV号，请确保URL格式正确"

/-- JS `String.prototype.replace` with a string pattern: replace the first
occurrence of `pat` (here always non-empty) and leave the rest unchanged;
no occurrence leaves the string unchanged. -/
def jsReplaceFirst (pat rep : List Char) : List Char → List Char
  | [] => []
  | c :: rest =>
    if pat.isPrefixOf (c :: rest) then rep ++ (c :: rest).drop pat.length
    else c :: jsReplaceFirst pat rep rest

/-- `'http://'` as characters. -/
def httpPrefix : List Char := ['h', 't', 't', 'p', ':', '/', '/']

/-- `'https://'` as characters. -/
def httpsPrefix : List Char := ['h', 't', 't', 'p', 's', ':', '/', '/']

/-- The URL `downloadSubtitle` actually fetches (source lines 213–216):
`url.startsWith('http://')` guards `url.replace('http://', 'https://')`. -/
def downloadUrl (url : String) : String :=
  if httpPrefix.isPrefixOf url.toList then
    ⟨jsReplaceFirst httpPrefix httpsPrefix url.toList⟩
  else url

/-! ### The pipeline -/

/-- The metadata API URL built by `getVideoInfo`. -/
def viewApiUrl (bvid : String) : String :=
  "https://api.bilibili.com/x/web-interface/view?bvid=" ++ bvid

/-- The caption-list API URL built by `getSubtitleList`. -/
def playerApiUrl (aid cid : Int) : String :=
  "https://api.bilibili.com/x/player/wbi/v2?aid=" ++ toString aid ++ "&cid=" ++ toString cid

/-- The error-variant response built in the `catch` block of
`handleSubtitleRequest` (source lines 163–167): tag, echoed identifier,
and `error: String(error)`. -/
def errorResponse (req : SubtitleRequest) (v : Thrown) : SubtitleResponse :=
  { type := "SUBTITLE_RESULT", requestId := req.requestId, data := none, error := some v.jsString }

/-- `videoInfo.owner?.name || '未知作者'` (source line 151): the placeholder
is used when `owner` is absent or when its name is the empty string (falsy
under `||`). -/
def authorOf (owner : Option Owner) : String :=
  match owner with
  | none => "未知作者"
  | some o => if o.name = "" then "未知作者" else o.name

/-- `handleSubtitleRequest` (source lines 119–171): the whole try/catch
body as one pure function of the request and the fetch environment.
Returns the responses handed to `sendResponse` and the fetches issued.
The `TypeError` raised by reading `.cid` when `pages` is empty is embedded
as a non-`Error` thrown value carrying its rendering. -/
def handleSubtitleRequest (env : Env) (req : SubtitleRequest) : PipelineResult :=
  match extractBVID req.videoUrl with
  | none => { responses := [errorResponse req (.jsError extractBVIDErrMsg)], calls := [] }
  | some bvid =>
    let call1 : FetchCall := { url := viewApiUrl bvid, withCredentials := true }
    match env.videoInfoResult with
    | .reject v => { responses := [errorResponse req v], calls := [call1] }
    | .ok envl =>
      if envl.code ≠ 0 then
        { responses := [errorResponse req (.jsError ("获取视频信息失败: " ++ envl.message))],
          calls := [call1] }
      else
        let vi := envl.data
        match vi.pages with
        | [] =>
          { responses := [errorResponse req
              (.value "TypeError: Cannot read properties of undefined (reading 'cid')")],
            calls := [call1] }
        | page :: _ =>
          let call2 : FetchCall := { url := playerApiUrl vi.aid page.cid, withCredentials := true }
          match env.subtitleListResult with
          | .reject v => { responses := [errorResponse req v], calls := [call1, call2] }
          | .ok envl2 =>
            if envl2.code ≠ 0 then
              { responses := [errorResponse req
                  (.jsError ("获取字幕列表失败: " ++ envl2.message))],
                calls := [call1, call2] }
            else
              match envl2.subtitles.filter (fun t => t.subtitle_url ≠ "") with
              | [] =>
                { responses := [errorResponse req (.jsError "该视频没有可用的字幕")],
                  calls := [call1, call2] }
              | track :: _ =>
                let call3 : FetchCall := { url := downloadUrl track.subtitle_url,
                                           withCredentials := false }
                match env.downloadResult with
                | .reject v =>
                  { responses := [errorResponse req v], calls := [call1, call2, call3] }
                | .ok doc =>
                  { responses := [{ type := "SUBTITLE_RESULT",
                                    requestId := req.requestId,
                                    data := some { title := vi.title,
                                                   author := authorOf vi.owner,
                                                   url := req.videoUrl,
                                                   ctime := vi.ctime,
                                                   subtitles := doc.body.getD [] },
                                    error := none }],
                    calls := [call1, call2, call3] }

/-- `handleMessage` (source lines 104–117).  `parsed` is the outcome of
`JSON.parse` on the raw text: `none` embeds the catch branch (invalid
JSON); a decoded message is dispatched only when its tag is
`'GET_SUBTITLE'`, otherwise logged and dropped. -/
def handleMessage (env : Env) (parsed : Option SubtitleRequest) : PipelineResult :=
  match parsed with
  | none => { responses := [], calls := [] }
  | some m =>
    if m.type = "GET_SUBTITLE" then handleSubtitleRequest env m
    else { responses := [], calls := [] }

/-! ### Connection manager -/

/-- `WebSocket.readyState` values. -/
inductive ReadyState where
  | CONNECTING
  | OPEN
  | CLOSING
  | CLOSED
deriving DecidableEq, Repr

/-- `sendResponse` (source lines 223–229): returns the message transmitted
over the transport, or `none` when the guard
`this.ws && this.ws.readyState === WebSocket.OPEN` fails and the message
is logged and dropped. -/
def sendResponse (ws : Option ReadyState) (response : SubtitleResponse) :
    Option SubtitleResponse :=
  match ws with
  | some .OPEN => some response
  | _ => none

/-- The connection manager's mutable fields plus a ghost view of the
runtime's pending-timeout set: `pendingTimers` lists the timer ids that
have been created by `setTimeout` and have neither fired nor been cleared;
`nextTimerId` makes new ids fresh. -/
structure CMState where
  ws : Option ReadyState
  reconnectTimer : Option Nat
  isConnecting : Bool
  pendingTimers : List Nat
  nextTimerId : Nat
deriving DecidableEq, Repr

/-- `scheduleReconnect` (source lines 91–102): a stored handle suppresses
scheduling; otherwise one fresh timer is created and its handle stored. -/
def scheduleReconnect (s : CMState) : CMState :=
  match s.reconnectTimer with
  | some _ => s
  | none =>
    { s with reconnectTimer := some s.nextTimerId,
             pendingTimers := s.nextTimerId :: s.pendingTimers,
             nextTimerId := s.nextTimerId + 1 }

/-- The guard `this.ws && this.ws.readyState === WebSocket.OPEN`. -/
def wsIsOpen : Option ReadyState → Bool
  | some .OPEN => true
  | _ => false

/-- `connect` (source lines 48–89), synchronous part: the idempotence
guard, then either `new WebSocket` succeeds (a fresh CONNECTING socket is
stored; the callbacks it registers are the events of `step`), or the
constructor throws and the catch branch schedules a reconnect.
`ctorThrows` selects which. -/
def connect (s : CMState) (ctorThrows : Bool) : CMState :=
  if s.isConnecting || wsIsOpen s.ws then s
  else if ctorThrows then
    scheduleReconnect { s with isConnecting := false }
  else
    { s with isConnecting := true, ws := some .CONNECTING }

/-- The `onopen` callback (source lines 59–67): the socket is now OPEN;
clear and forget any pending reconnect timer. -/
def onOpen (s : CMState) : CMState :=
  let s1 := { s with ws := some ReadyState.OPEN, isConnecting := false }
  match s1.reconnectTimer with
  | some t =>
    { s1 with reconnectTimer := none, pendingTimers := s1.pendingTimers.erase t }
  | none => s1

/-- Events delivered to the connection manager: the `onopen`, `onclose`
and `onerror` callbacks, and the firing of a pending reconnect timer
(whose callback then re-invokes `connect`, which may itself throw). -/
inductive Event where
  | evOpen
  | evClose
  | evError
  | evTimer (t : Nat) (ctorThrows : Bool)
deriving DecidableEq, Repr

/-- One event's effect on the state.  A firing timer is removed from the
runtime's pending set; its callback first nulls the stored handle, then
re-invokes `connect` (source lines 98–101). -/
def step (s : CMState) : Event → CMState
  | .evOpen => onOpen s
  | .evClose => scheduleReconnect { s with ws := some .CLOSED, isConnecting := false }
  | .evError => scheduleReconnect { s with isConnecting := false }
  | .evTimer t ctorThrows =>
    connect { s with pendingTimers := s.pendingTimers.erase t, reconnectTimer := none }
      ctorThrows

/-- Which events can occur in a state: only a pending timer can fire. -/
def validEvent (s : CMState) : Event → Prop
  | .evTimer t _ => t ∈ s.pendingTimers
  | _ => True

/-- The fields as initialised by the class declaration. -/
def initState : CMState :=
  { ws := none, reconnectTimer := none, isConnecting := false,
    pendingTimers := [], nextTimerId := 0 }

/-- The constructor runs `start()` which runs `connect()`. -/
def startService (ctorThrows : Bool) : CMState :=
  connect initState ctorThrows

/-- States reachable from service start by valid events. -/
inductive Reachable : CMState → Prop
  | init (b : Bool) : Reachable (startService b)
  | next (s : CMState) (e : Event) : Reachable s → validEvent s e → Reachable (step s e)

/-- The timer invariant: the stored handle and the runtime's pending set
agree, and at most one timer is pending. -/
def TimerInv (s : CMState) : Prop :=
  (s.reconnectTimer = none ∧ s.pendingTimers = []) ∨
  (∃ t, s.reconnectTimer = some t ∧ s.pendingTimers = [t])

/-! ### Concrete inputs used to instantiate the theorems -/

/-- The request of the spec's end-to-end scenario A. -/
def reqA : SubtitleRequest :=
  { type := "GET_SUBTITLE",
    videoUrl := "https://www.bilibili.com/video/BV1xx411c7mD",
    requestId := "r1" }

/-- A decoded message whose tag is not `GET_SUBTITLE`. -/
def msgPing : SubtitleRequest :=
  { type := "PING", videoUrl := "", requestId := "r9" }

/-- A request whose URL has no `/video/BV...` segment. -/
def reqBadUrl : SubtitleRequest :=
  { type := "GET_SUBTITLE",
    videoUrl := "https://example.com/watch?v=123",
    requestId := "r2" }

/-- The metadata payload of scenario A: title T, owner A, ctime 1000, one
page with cid 55. -/
def viA : VideoInfo :=
  { title := "T", aid := 5, ctime := 1000,
    owner := some { name := "A" }, pages := [{ cid := 55 }] }

/-- The environment of scenario A: every stage succeeds; the caption track
has an insecure-scheme URL; the document has one line. -/
def envA : Env :=
  { videoInfoResult := .ok { code := 0, message := "", data := viA },
    subtitleListResult :=
      .ok { code := 0, message := "",
            subtitles := [{ subtitle_url := "http://i0.hdslb.com/bfs/ai_subtitle/x.json" }] },
    downloadResult := .ok { body := some [{ from_ := 0, to_ := 2, content := "hi" }] } }

/-- The environment of scenario B: the caption-list stage succeeds but the
filtered track list is empty. -/
def envEmptyList : Env :=
  { videoInfoResult := .ok { code := 0, message := "", data := viA },
    subtitleListResult := .ok { code := 0, message := "", subtitles := [] },
    downloadResult := .ok { body := none } }

/-- An all-success environment whose metadata has an owner that is present
but whose display name is the empty string. -/
def envEmptyOwner : Env :=
  { videoInfoResult :=
      .ok { code := 0, message := "",
            data := { title := "T", aid := 5, ctime := 1000,
                      owner := some { name := "" }, pages := [{ cid := 55 }] } },
    subtitleListResult :=
      .ok { code := 0, message := "",
            subtitles := [{ subtitle_url := "https://i0.hdslb.com/bfs/ai_subtitle/x.json" }] },
    downloadResult := .ok { body := some [{ from_ := 0, to_ := 2, content := "hi" }] } }

/-- An environment whose metadata fetch rejects with a non-`Error` thrown
value (a network failure). -/
def envReject : Env :=
  { videoInfoResult := .reject (.value "TypeError: Failed to fetch"),
    subtitleListResult := .ok { code := 0, message := "", subtitles := [] },
    downloadResult := .ok { body := none } }

/-- A sample outbound response for exercising `sendResponse`. -/
def respSample : SubtitleResponse :=
  { type := "SUBTITLE_RESULT", requestId := "r1", data := none, error := some "Error: x" }

/-- A caption URL with the insecure scheme. -/
def urlHttpSample : String := "http://i0.hdslb.com/bfs/ai_subtitle/x.json"

/-- A caption URL with the secure scheme. -/
def urlHttpsSample : String := "https://i0.hdslb.com/bfs/ai_subtitle/x.json"

/-- The success response scenario A produces. -/
def respA : SubtitleResponse :=
  { type := "SUBTITLE_RESULT", requestId := "r1",
    data := some { title := "T", author := "A",
                   url := "https://www.bilibili.com/video/BV1xx411c7mD", ctime := 1000,
                   subtitles := [{ from_ := 0, to_ := 2, content := "hi" }] },
    error := none }

/-- The error response scenario B produces. -/
def respB : SubtitleResponse :=
  { type := "SUBTITLE_RESULT", requestId := "r1", data := none,
    error := some "Error: 该视频没有可用的字幕" }

/-! ### Theorems -/

/-- Every run of the handler hands exactly one response to `sendResponse`;
it carries the `SUBTITLE_RESULT` tag, echoes the request identifier, and is
either a success variant (some data, no error) or an error variant (no
data, the rendering of a thrown value). -/
lemma handleSubtitleRequest_responses (env : Env) (req : SubtitleRequest) :
    ∃ r : SubtitleResponse, (handleSubtitleRequest env req).responses = [r] ∧
      r.type = "SUBTITLE_RESULT" ∧ r.requestId = req.requestId ∧
      ((∃ d, r.data = some d ∧ r.error = none) ∨
       (r.data = none ∧ ∃ v : Thrown, r.error = some v.jsString)) := by
  obtain ⟨vr, sr, dr⟩ := env
  unfold handleSubtitleRequest
  cases hb : extractBVID req.videoUrl with
  | none => exact ⟨_, rfl, rfl, rfl, Or.inr ⟨rfl, _, rfl⟩⟩
  | some bvid =>
    cases vr with
    | reject v => exact ⟨_, rfl, rfl, rfl, Or.inr ⟨rfl, _, rfl⟩⟩
    | ok e1 =>
      dsimp only
      by_cases hc : e1.code ≠ 0
      · rw [if_pos hc]
        exact ⟨_, rfl, rfl, rfl, Or.inr ⟨rfl, _, rfl⟩⟩
      · rw [if_neg hc]
        cases hp : e1.data.pages with
        | nil => exact ⟨_, rfl, rfl, rfl, Or.inr ⟨rfl, _, rfl⟩⟩
        | cons p ps =>
          cases sr with
          | reject v => exact ⟨_, rfl, rfl, rfl, Or.inr ⟨rfl, _, rfl⟩⟩
          | ok e2 =>
            dsimp only
            by_cases hc2 : e2.code ≠ 0
            · rw [if_pos hc2]
              exact ⟨_, rfl, rfl, rfl, Or.inr ⟨rfl, _, rfl⟩⟩
            · rw [if_neg hc2]
              cases hf : e2.subtitles.filter (fun t => t.subtitle_url ≠ "") with
              | nil => exact ⟨_, rfl, rfl, rfl, Or.inr ⟨rfl, _, rfl⟩⟩
              | cons track ts =>
                cases dr with
                | reject v => exact ⟨_, rfl, rfl, rfl, Or.inr ⟨rfl, _, rfl⟩⟩
                | ok doc => exact ⟨_, rfl, rfl, rfl, Or.inl ⟨_, rfl, rfl⟩⟩

/-- C1: for every decoded GET_SUBTITLE request with identifier R,
`handleSubtitleRequest` emits at most one response, and any response it
emits echoes exactly R as its requestId, in the success branch and in the
error branch alike. -/
theorem c1_request_correlation (env : Env) (req : SubtitleRequest) :
    (handleSubtitleRequest env req).responses.length ≤ 1 ∧
    ∀ r ∈ (handleSubtitleRequest env req).responses, r.requestId = req.requestId := by
  obtain ⟨r, hr, -, hid, -⟩ := handleSubtitleRequest_responses env req
  rw [hr]
  exact ⟨by simp, by simpa using hid⟩

/-- Witness for C1 at the scenario-A input and its concrete response. -/
theorem c1_request_correlation_witness :
    (handleSubtitleRequest envA reqA).responses.length ≤ 1 ∧
    respA.requestId = reqA.requestId :=
  ⟨(c1_request_correlation envA reqA).1,
   (c1_request_correlation envA reqA).2 respA (by decide)⟩

/-- C2: every response the pipeline constructs carries exactly one of a
success payload or an error string: never both, never neither. -/
theorem c2_payload_error_exclusive (env : Env) (req : SubtitleRequest) :
    ∀ r ∈ (handleSubtitleRequest env req).responses,
      (r.data.isSome ∧ r.error = none) ∨ (r.data = none ∧ r.error.isSome) := by
  obtain ⟨r, hr, -, -, hde⟩ := handleSubtitleRequest_responses env req
  rw [hr]
  intro r' hr'
  rw [List.mem_singleton] at hr'
  subst hr'
  rcases hde with ⟨d, hd, he⟩ | ⟨hd, v, he⟩
  · exact Or.inl ⟨by simp [hd], he⟩
  · exact Or.inr ⟨hd, by simp [he]⟩

/-- Witness for C2 at the scenario-B input and its concrete response. -/
theorem c2_payload_error_exclusive_witness :
    (respB.data.isSome ∧ respB.error = none) ∨ (respB.data = none ∧ respB.error.isSome) :=
  c2_payload_error_exclusive envEmptyList reqA respB (by decide)

/-- C3: invalid JSON (decode failure) and messages whose tag is not
GET_SUBTITLE produce zero outbound responses and zero fetches. -/
theorem c3_silent_drop (env : Env) (m : SubtitleRequest) (h : m.type ≠ "GET_SUBTITLE") :
    handleMessage env none = { responses := [], calls := [] } ∧
    handleMessage env (some m) = { responses := [], calls := [] } := by
  refine ⟨rfl, ?_⟩
  simp [handleMessage, h]

/-- Witness for C3: a PING-tagged message and a decode failure are both
dropped. -/
theorem c3_silent_drop_witness :
    msgPing.type ≠ "GET_SUBTITLE" ∧
    (handleMessage envA none = { responses := [], calls := [] } ∧
     handleMessage envA (some msgPing) = { responses := [], calls := [] }) :=
  ⟨by decide, c3_silent_drop envA msgPing (by decide)⟩

/-- When the string begins with the insecure scheme, the first-occurrence
replace rewrites exactly that leading occurrence. -/
lemma jsReplaceFirst_http (rep : List Char) (l : List Char)
    (h : httpPrefix.isPrefixOf l = true) :
    jsReplaceFirst httpPrefix rep l = rep ++ l.drop 7 := by
  cases l with
  | nil => exact absurd h (by decide)
  | cons c rest =>
    unfold jsReplaceFirst
    rw [if_pos h]
    rfl

/-- C5: a caption URL beginning with http:// is fetched as https:// with
the remainder preserved; any other caption URL (https:// in particular) is
fetched unchanged. -/
theorem c5_url_upgrade (url : String) :
    (httpPrefix.isPrefixOf url.toList = true →
       (downloadUrl url).toList = httpsPrefix ++ url.toList.drop 7) ∧
    (httpPrefix.isPrefixOf url.toList = false → downloadUrl url = url) := by
  constructor
  · intro h
    unfold downloadUrl
    rw [if_pos h]
    exact jsReplaceFirst_http httpsPrefix url.toList h
  · intro h
    unfold downloadUrl
    have hn : ¬(httpPrefix.isPrefixOf url.toList = true) := by
      rw [h]
      exact Bool.false_ne_true
    rw [if_neg hn]

/-- Witness for C5 at an insecure and a secure URL. -/
theorem c5_url_upgrade_witness :
    httpPrefix.isPrefixOf urlHttpSample.toList = true ∧
    (downloadUrl urlHttpSample).toList = httpsPrefix ++ urlHttpSample.toList.drop 7 ∧
    httpPrefix.isPrefixOf urlHttpsSample.toList = false ∧
    downloadUrl urlHttpsSample = urlHttpsSample :=
  ⟨by decide, (c5_url_upgrade urlHttpSample).1 (by decide),
   by decide, (c5_url_upgrade urlHttpsSample).2 (by decide)⟩

/-- C7: when the URL does not match the BV pattern the pipeline
short-circuits: exactly one error response about URL extraction, and no
fetch is issued for metadata, caption list, or caption document. -/
theorem c7_unparseable_url (env : Env) (req : SubtitleRequest)
    (h : extractBVID req.videoUrl = none) :
    (handleSubtitleRequest env req).responses =
      [{ type := "SUBTITLE_RESULT", requestId := req.requestId, data := none,
         error := some ("Error: " ++ extractBVIDErrMsg) }] ∧
    (handleSubtitleRequest env req).calls = [] := by
  unfold handleSubtitleRequest
  rw [h]
  exact ⟨rfl, rfl⟩

/-- Witness for C7 at a URL with no /video/BV segment. -/
theorem c7_unparseable_url_witness :
    extractBVID reqBadUrl.videoUrl = none ∧
    ((handleSubtitleRequest envA reqBadUrl).responses =
       [{ type := "SUBTITLE_RESULT", requestId := reqBadUrl.requestId, data := none,
          error := some ("Error: " ++ extractBVIDErrMsg) }] ∧
     (handleSubtitleRequest envA reqBadUrl).calls = []) :=
  ⟨by decide, c7_unparseable_url envA reqBadUrl (by decide)⟩

/-- C9: `sendResponse` transmits the message precisely when the session
exists and is OPEN; in every other state the message is dropped. -/
theorem c9_send_only_when_open (ws : Option ReadyState) (r : SubtitleResponse) :
    (sendResponse ws r = some r ↔ ws = some ReadyState.OPEN) ∧
    (ws ≠ some ReadyState.OPEN → sendResponse ws r = none) := by
  constructor
  · constructor
    · intro h
      cases ws with
      | none => simp [sendResponse] at h
      | some st => cases st <;> simp_all [sendResponse]
    · intro h
      subst h
      rfl
  · intro h
    cases ws with
    | none => rfl
    | some st => cases st <;> first | rfl | exact absurd rfl h

/-- Witness for C9: transmitted when OPEN, dropped when CONNECTING or when
no session exists. -/
theorem c9_send_only_when_open_witness :
    sendResponse (some ReadyState.OPEN) respSample = some respSample ∧
    sendResponse (some ReadyState.CONNECTING) respSample = none ∧
    sendResponse none respSample = none :=
  ⟨(c9_send_only_when_open (some ReadyState.OPEN) respSample).1.mpr rfl,
   (c9_send_only_when_open (some ReadyState.CONNECTING) respSample).2 (by decide),
   (c9_send_only_when_open none respSample).2 (by decide)⟩

/-- `scheduleReconnect` preserves the timer invariant. -/
lemma timerInv_scheduleReconnect (s : CMState) (h : TimerInv s) :
    TimerInv (scheduleReconnect s) := by
  rcases h with ⟨h1, h2⟩ | ⟨t, h1, h2⟩
  · exact Or.inr ⟨s.nextTimerId, by simp [scheduleReconnect, h1],
      by simp [scheduleReconnect, h1, h2]⟩
  · exact Or.inr ⟨t, by simp [scheduleReconnect, h1], by simp [scheduleReconnect, h1, h2]⟩

/-- The `onopen` callback preserves the timer invariant: it clears the one
pending timer, if any. -/
lemma timerInv_onOpen (s : CMState) (h : TimerInv s) : TimerInv (onOpen s) := by
  rcases h with ⟨h1, h2⟩ | ⟨t, h1, h2⟩
  · exact Or.inl ⟨by simp [onOpen, h1], by simp [onOpen, h1, h2]⟩
  · exact Or.inl ⟨by simp [onOpen, h1], by simp [onOpen, h1, h2]⟩

/-- `connect` preserves the timer invariant in all three of its branches. -/
lemma timerInv_connect (s : CMState) (b : Bool) (h : TimerInv s) :
    TimerInv (connect s b) := by
  unfold connect
  split
  · exact h
  · split
    · exact timerInv_scheduleReconnect _ h
    · rcases h with ⟨h1, h2⟩ | ⟨t, h1, h2⟩
      · exact Or.inl ⟨h1, h2⟩
      · exact Or.inr ⟨t, h1, h2⟩

/-- One valid event preserves the timer invariant. -/
lemma timerInv_step (s : CMState) (e : Event) (h : TimerInv s) (hv : validEvent s e) :
    TimerInv (step s e) := by
  cases e with
  | evOpen => exact timerInv_onOpen s h
  | evClose => exact timerInv_scheduleReconnect _ h
  | evError => exact timerInv_scheduleReconnect _ h
  | evTimer t b =>
    apply timerInv_connect
    simp only [validEvent] at hv
    rcases h with ⟨h1, h2⟩ | ⟨t', h1, h2⟩
    · rw [h2] at hv
      cases hv
    · rw [h2] at hv
      rw [List.mem_singleton] at hv
      subst hv
      refine Or.inl ⟨rfl, ?_⟩
      rw [h2]
      simp

/-- Every reachable connection-manager state satisfies the timer
invariant. -/
lemma timerInv_reachable (s : CMState) (h : Reachable s) : TimerInv s := by
  induction h with
  | init b =>
    cases b with
    | false => exact Or.inl ⟨rfl, rfl⟩
    | true => exact Or.inr ⟨0, rfl, rfl⟩
  | next s e hr hv ih => exact timerInv_step s e ih hv

/-- C4: after any sequence of connection failures, close or error events
and timer firings, at most one reconnection timer is pending; moreover
`scheduleReconnect` is a no-op whenever a timer handle is already
stored. -/
theorem c4_single_pending_reconnect (s : CMState) (h : Reachable s) :
    s.pendingTimers.length ≤ 1 ∧
    ∀ s' : CMState, s'.reconnectTimer ≠ none → scheduleReconnect s' = s' := by
  constructor
  · rcases timerInv_reachable s h with ⟨-, h2⟩ | ⟨t, -, h2⟩ <;> simp [h2]
  · intro s' hs'
    unfold scheduleReconnect
    cases hh : s'.reconnectTimer with
    | none => exact absurd hh hs'
    | some t => rfl

/-- Witness for C4 at the reachable state after a failed first connect. -/
theorem c4_single_pending_reconnect_witness :
    Reachable (startService true) ∧ (startService true).pendingTimers.length ≤ 1 :=
  ⟨Reachable.init true, (c4_single_pending_reconnect _ (Reachable.init true)).1⟩

/-- C6 as stated is false: the error field the code produces is the
`String(error)` rendering of the thrown `Error`, which carries the
`Error: ` prefix, not the bare message. At the scenario-B input (empty
filtered caption list) the single response's error field differs from the
bare message. -/
theorem c6_claim_counterexample :
    (handleSubtitleRequest envEmptyList reqA).responses.map SubtitleResponse.error =
      [some "Error: 该视频没有可用的字幕"] ∧
    ((handleSubtitleRequest envEmptyList reqA).responses.all
       fun r => r.error != some "该视频没有可用的字幕") = true ∧
    some "Error: 该视频没有可用的字幕" ≠ some "该视频没有可用的字幕" :=
  ⟨rfl, rfl, by decide⟩

/-- C6 (amended): when the filtered caption list is empty, the pipeline
produces the error-variant response whose error field is
`Error: 该视频没有可用的字幕` (the String rendering of the thrown Error),
with the echoed request identifier, and the caption-download stage is
never reached (only the two credentialed API fetches are issued). -/
theorem c6_empty_caption_list (env : Env) (req : SubtitleRequest) (bvid : String)
    (e1 : VideoInfoEnvelope) (p : PageInfo) (ps : List PageInfo)
    (e2 : SubtitleListEnvelope)
    (h1 : extractBVID req.videoUrl = some bvid)
    (h2 : env.videoInfoResult = FetchResult.ok e1) (h3 : e1.code = 0)
    (h4 : e1.data.pages = p :: ps)
    (h5 : env.subtitleListResult = FetchResult.ok e2) (h6 : e2.code = 0)
    (h7 : e2.subtitles.filter (fun t => t.subtitle_url ≠ "") = []) :
    (handleSubtitleRequest env req).responses =
      [{ type := "SUBTITLE_RESULT", requestId := req.requestId, data := none,
         error := some "Error: 该视频没有可用的字幕" }] ∧
    (handleSubtitleRequest env req).calls =
      [{ url := viewApiUrl bvid, withCredentials := true },
       { url := playerApiUrl e1.data.aid p.cid, withCredentials := true }] := by
  have hc : ¬(e1.code ≠ 0) := by
    rw [h3]
    simp
  have hc2 : ¬(e2.code ≠ 0) := by
    rw [h6]
    simp
  unfold handleSubtitleRequest
  rw [h1]
  dsimp only
  rw [h2]
  dsimp only
  rw [if_neg hc]
  rw [h4]
  dsimp only
  rw [h5]
  dsimp only
  rw [if_neg hc2]
  rw [h7]
  exact ⟨rfl, rfl⟩

/-- Witness for C6 (amended) at the scenario-B input. -/
theorem c6_empty_caption_list_witness :
    extractBVID reqA.videoUrl = some "BV1xx411c7mD" ∧
    ((handleSubtitleRequest envEmptyList reqA).responses =
       [{ type := "SUBTITLE_RESULT", requestId := reqA.requestId, data := none,
          error := some "Error: 该视频没有可用的字幕" }] ∧
     (handleSubtitleRequest envEmptyList reqA).calls =
       [{ url := viewApiUrl "BV1xx411c7mD", withCredentials := true },
        { url := playerApiUrl 5 55, withCredentials := true }]) :=
  ⟨rfl, c6_empty_caption_list envEmptyList reqA "BV1xx411c7mD"
     { code := 0, message := "", data := viA } { cid := 55 } []
     { code := 0, message := "", subtitles := [] }
     rfl rfl rfl rfl rfl rfl rfl⟩

/-- C8 as stated is false on one point: the author fallback does not only
trigger when the owner is absent. When the owner is present but its
display name is the empty string (falsy under the JS `||`), the code
substitutes the placeholder instead of the owner's display name. -/
theorem c8_claim_counterexample :
    (handleSubtitleRequest envEmptyOwner reqA).responses.map
        (fun r => r.data.map SuccessData.author) = [some "未知作者"] ∧
    ("未知作者" : String) ≠ "" :=
  ⟨rfl, by decide⟩

/-- C8 (amended): on full success the payload is built from the metadata
title, the author (the owner's display name when present and non-empty,
the placeholder 未知作者 when the owner is absent or its name empty), the
original request URL, the metadata creation timestamp, and the caption
document's line list (empty when absent). -/
theorem c8_success_payload (env : Env) (req : SubtitleRequest) (bvid : String)
    (e1 : VideoInfoEnvelope) (p : PageInfo) (ps : List PageInfo)
    (e2 : SubtitleListEnvelope) (track : SubtitleTrack) (ts : List SubtitleTrack)
    (doc : SubtitleDoc)
    (h1 : extractBVID req.videoUrl = some bvid)
    (h2 : env.videoInfoResult = FetchResult.ok e1) (h3 : e1.code = 0)
    (h4 : e1.data.pages = p :: ps)
    (h5 : env.subtitleListResult = FetchResult.ok e2) (h6 : e2.code = 0)
    (h7 : e2.subtitles.filter (fun t => t.subtitle_url ≠ "") = track :: ts)
    (h8 : env.downloadResult = FetchResult.ok doc) :
    (handleSubtitleRequest env req).responses =
      [{ type := "SUBTITLE_RESULT", requestId := req.requestId,
         data := some { title := e1.data.title, author := authorOf e1.data.owner,
                        url := req.videoUrl, ctime := e1.data.ctime,
                        subtitles := doc.body.getD [] },
         error := none }] ∧
    authorOf none = "未知作者" ∧
    (∀ o : Owner, o.name ≠ "" → authorOf (some o) = o.name) ∧
    (∀ o : Owner, o.name = "" → authorOf (some o) = "未知作者") ∧
    (∀ l : List TranscriptItem, (some l : Option (List TranscriptItem)).getD [] = l) ∧
    ((none : Option (List TranscriptItem)).getD [] = []) := by
  have hc : ¬(e1.code ≠ 0) := by
    rw [h3]
    simp
  have hc2 : ¬(e2.code ≠ 0) := by
    rw [h6]
    simp
  refine ⟨?_, rfl, ?_, ?_, fun l => rfl, rfl⟩
  · unfold handleSubtitleRequest
    rw [h1]
    dsimp only
    rw [h2]
    dsimp only
    rw [if_neg hc]
    rw [h4]
    dsimp only
    rw [h5]
    dsimp only
    rw [if_neg hc2]
    rw [h7]
    dsimp only
    rw [h8]
  · intro o ho
    simp [authorOf, ho]
  · intro o ho
    simp [authorOf, ho]

/-- Witness for C8 (amended) at the scenario-A input. -/
theorem c8_success_payload_witness :
    (handleSubtitleRequest envA reqA).responses =
      [{ type := "SUBTITLE_RESULT", requestId := "r1",
         data := some { title := "T", author := "A",
                        url := "https://www.bilibili.com/video/BV1xx411c7mD",
                        ctime := 1000,
                        subtitles := [{ from_ := 0, to_ := 2, content := "hi" }] },
         error := none }] :=
  (c8_success_payload envA reqA "BV1xx411c7mD"
     { code := 0, message := "", data := viA } { cid := 55 } []
     { code := 0, message := "",
       subtitles := [{ subtitle_url := "http://i0.hdslb.com/bfs/ai_subtitle/x.json" }] }
     { subtitle_url := "http://i0.hdslb.com/bfs/ai_subtitle/x.json" } []
     { body := some [{ from_ := 0, to_ := 2, content := "hi" }] }
     rfl rfl rfl rfl rfl rfl rfl rfl).1

/-- C10: in every one of the handler's failure branches — unmatched BV
pattern, metadata fetch rejection, metadata envelope code not 0, empty
page list (TypeError), caption-list fetch rejection, caption-list
envelope code not 0, empty filtered caption list, and caption-document
fetch rejection — the error field of the response is the JS String
rendering of the value thrown in that branch; values raised as Error
objects carry the `Error: ` prefix before their message. -/
theorem c10_error_is_thrown_rendering (env : Env) (req : SubtitleRequest) (v : Thrown)
    (bvid : String) (e1 : VideoInfoEnvelope) (p : PageInfo) (ps : List PageInfo)
    (e2 : SubtitleListEnvelope) (track : SubtitleTrack) (ts : List SubtitleTrack) :
    (extractBVID req.videoUrl = none →
       (handleSubtitleRequest env req).responses.map SubtitleResponse.error =
         [some (Thrown.jsError extractBVIDErrMsg).jsString]) ∧
    (extractBVID req.videoUrl = some bvid →
     env.videoInfoResult = FetchResult.reject v →
       (handleSubtitleRequest env req).responses.map SubtitleResponse.error =
         [some v.jsString]) ∧
    (extractBVID req.videoUrl = some bvid →
     env.videoInfoResult = FetchResult.ok e1 → e1.code ≠ 0 →
       (handleSubtitleRequest env req).responses.map SubtitleResponse.error =
         [some (Thrown.jsError ("获取视频信息失败: " ++ e1.message)).jsString]) ∧
    (extractBVID req.videoUrl = some bvid →
     env.videoInfoResult = FetchResult.ok e1 → e1.code = 0 → e1.data.pages = [] →
       (handleSubtitleRequest env req).responses.map SubtitleResponse.error =
         [some (Thrown.value
            "TypeError: Cannot read properties of undefined (reading 'cid')").jsString]) ∧
    (extractBVID req.videoUrl = some bvid →
     env.videoInfoResult = FetchResult.ok e1 → e1.code = 0 → e1.data.pages = p :: ps →
     env.subtitleListResult = FetchResult.reject v →
       (handleSubtitleRequest env req).responses.map SubtitleResponse.error =
         [some v.jsString]) ∧
    (extractBVID req.videoUrl = some bvid →
     env.videoInfoResult = FetchResult.ok e1 → e1.code = 0 → e1.data.pages = p :: ps →
     env.subtitleListResult = FetchResult.ok e2 → e2.code ≠ 0 →
       (handleSubtitleRequest env req).responses.map SubtitleResponse.error =
         [some (Thrown.jsError ("获取字幕列表失败: " ++ e2.message)).jsString]) ∧
    (extractBVID req.videoUrl = some bvid →
     env.videoInfoResult = FetchResult.ok e1 → e1.code = 0 → e1.data.pages = p :: ps →
     env.subtitleListResult = FetchResult.ok e2 → e2.code = 0 →
     e2.subtitles.filter (fun t => t.subtitle_url ≠ "") = [] →
       (handleSubtitleRequest env req).responses.map SubtitleResponse.error =
         [some (Thrown.jsError "该视频没有可用的字幕").jsString]) ∧
    (extractBVID req.videoUrl = some bvid →
     env.videoInfoResult = FetchResult.ok e1 → e1.code = 0 → e1.data.pages = p :: ps →
     env.subtitleListResult = FetchResult.ok e2 → e2.code = 0 →
     e2.subtitles.filter (fun t => t.subtitle_url ≠ "") = track :: ts →
     env.downloadResult = FetchResult.reject v →
       (handleSubtitleRequest env req).responses.map SubtitleResponse.error =
         [some v.jsString]) ∧
    (∀ msg : String, msg ≠ "" → (Thrown.jsError msg).jsString = "Error: " ++ msg) ∧
    (Thrown.jsError extractBVIDErrMsg).jsString = "Error: " ++ extractBVIDErrMsg ∧
    (Thrown.jsError "该视频没有可用的字幕").jsString = "Error: 该视频没有可用的字幕" := by
  refine ⟨?_, ?_, ?_, ?_, ?_, ?_, ?_, ?_, ?_, rfl, rfl⟩
  · intro h
    unfold handleSubtitleRequest
    rw [h]
    rfl
  · intro h1 h2
    unfold handleSubtitleRequest
    rw [h1]
    dsimp only
    rw [h2]
    rfl
  · intro h1 h2 h3
    unfold handleSubtitleRequest
    rw [h1]
    dsimp only
    rw [h2]
    dsimp only
    rw [if_pos h3]
    rfl
  · intro h1 h2 h3 h4
    have hc : ¬(e1.code ≠ 0) := by
      rw [h3]
      simp
    unfold handleSubtitleRequest
    rw [h1]
    dsimp only
    rw [h2]
    dsimp only
    rw [if_neg hc]
    rw [h4]
    rfl
  · intro h1 h2 h3 h4 h5
    have hc : ¬(e1.code ≠ 0) := by
      rw [h3]
      simp
    unfold handleSubtitleRequest
    rw [h1]
    dsimp only
    rw [h2]
    dsimp only
    rw [if_neg hc]
    rw [h4]
    dsimp only
    rw [h5]
    rfl
  · intro h1 h2 h3 h4 h5 h6
    have hc : ¬(e1.code ≠ 0) := by
      rw [h3]
      simp
    unfold handleSubtitleRequest
    rw [h1]
    dsimp only
    rw [h2]
    dsimp only
    rw [if_neg hc]
    rw [h4]
    dsimp only
    rw [h5]
    dsimp only
    rw [if_pos h6]
    rfl
  · intro h1 h2 h3 h4 h5 h6 h7
    have hc : ¬(e1.code ≠ 0) := by
      rw [h3]
      simp
    have hc2 : ¬(e2.code ≠ 0) := by
      rw [h6]
      simp
    unfold handleSubtitleRequest
    rw [h1]
    dsimp only
    rw [h2]
    dsimp only
    rw [if_neg hc]
    rw [h4]
    dsimp only
    rw [h5]
    dsimp only
    rw [if_neg hc2]
    rw [h7]
    rfl
  · intro h1 h2 h3 h4 h5 h6 h7 h8
    have hc : ¬(e1.code ≠ 0) := by
      rw [h3]
      simp
    have hc2 : ¬(e2.code ≠ 0) := by
      rw [h6]
      simp
    unfold handleSubtitleRequest
    rw [h1]
    dsimp only
    rw [h2]
    dsimp only
    rw [if_neg hc]
    rw [h4]
    dsimp only
    rw [h5]
    dsimp only
    rw [if_neg hc2]
    rw [h7]
    dsimp only
    rw [h8]
    rfl
  · intro msg hm
    simp [Thrown.jsString, hm]

/-- Witness for C10: the unparseable-URL error carries the prefix, the
rejected metadata fetch propagates the thrown value's rendering, and the
empty-caption-list branch renders its thrown Error with the prefix. -/
theorem c10_error_is_thrown_rendering_witness :
    (handleSubtitleRequest envA reqBadUrl).responses.map SubtitleResponse.error =
      [some (Thrown.jsError extractBVIDErrMsg).jsString] ∧
    (handleSubtitleRequest envReject reqA).responses.map SubtitleResponse.error =
      [some (Thrown.value "TypeError: Failed to fetch").jsString] ∧
    (handleSubtitleRequest envEmptyList reqA).responses.map SubtitleResponse.error =
      [some (Thrown.jsError "该视频没有可用的字幕").jsString] :=
  ⟨(c10_error_is_thrown_rendering envA reqBadUrl (Thrown.value "") ""
      { code := 0, message := "", data := viA } { cid := 0 } []
      { code := 0, message := "", subtitles := [] } { subtitle_url := "" } []).1 rfl,
   (c10_error_is_thrown_rendering envReject reqA
      (Thrown.value "TypeError: Failed to fetch") "BV1xx411c7mD"
      { code := 0, message := "", data := viA } { cid := 0 } []
      { code := 0, message := "", subtitles := [] } { subtitle_url := "" } []).2.1 rfl rfl,
   (c10_error_is_thrown_rendering envEmptyList reqA (Thrown.value "") "BV1xx411c7mD"
      { code := 0, message := "", data := viA } { cid := 55 } []
      { code := 0, message := "", subtitles := [] } { subtitle_url := "" }
      []).2.2.2.2.2.2.1 rfl rfl rfl rfl rfl rfl rfl⟩

end BiliSub
